import Mathlib

set_option maxHeartbeats 1000000

/-!
Verification of the sandboxed python-pptx script runner
(scripts/document-generator/run_ppt_script.py) and of the slide-image
extractor (scripts/document-generator/extract_ppt_images.py).

The runner is modelled as a pure function from its inputs (argv, the
outcome of reading stdin, the temporary directory name chosen by
`tempfile.mkdtemp`, and the semantics of the untrusted script) to a
trace of observable events, a process exit code, and a final world
state (filesystem, working directory, environment table).  The
untrusted script is a parameter: a function from the world it starts
in to one of the three outcome classes the runner distinguishes
(clean completion, a raised SystemExit, or an error raised through
the normal `except Exception` channel; compile errors raise
SyntaxError and land in the last class).  Process-level faults that
bypass that channel (spec section 4.3 class 3) crash the process and
are outside the model.
-/

/-- Filesystem, working directory and environment table visible to one
invocation: the set of existing files, the set of existing directories,
the current working directory and the environment variables. -/
structure World where
  files : List String
  dirs  : List String
  cwd   : String
  env   : List (String × String)
  deriving DecidableEq, Repr

/-- Python `os.environ[k] = v`: bind key to value, replacing any previous
binding for the same key. -/
def setEnv (env : List (String × String)) (k v : String) : List (String × String) :=
  (k, v) :: env.filter (fun p => !(p.1 == k))

/-- Character class stripped by Python `str.strip()` and `str.lstrip()`
(the six ASCII whitespace characters). -/
def isPySpace (c : Char) : Bool :=
  c == ' ' || c == '\t' || c == '\n' || c == '\r' || c == '\x0b' || c == '\x0c'

/-- Python `script_code.lstrip()` (line 41 of run_ppt_script.py). -/
def pyLStrip (s : String) : String :=
  String.mk (s.data.dropWhile isPySpace)

/-- Python truth test `not script_code.strip()` (line 36): true iff every
character of the source is whitespace. -/
def isBlank (s : String) : Bool := s.data.all isPySpace

/-- Helper for `str.startswith`: the first character list is a prefix of
the second. -/
def listStarts : List Char → List Char → Bool
  | [], _ => true
  | _ :: _, [] => false
  | a :: as, b :: bs => a == b && listStarts as bs

/-- Python `s.startswith(m)`: m is a leading substring of s. -/
def strStarts (m s : String) : Bool := listStarts m.data s.data

/-- Model of `os.path.abspath` over a POSIX working directory: absolute
paths pass through, relative paths are joined to the working directory.
Dot-segment normalisation is not modelled; no claim depends on it. -/
def abspath (cwd p : String) : String :=
  if strStarts "/" p then p else cwd ++ "/" ++ p

/-- True when path f lies strictly inside directory d (so `rmtree d`
removes f). -/
def inDir (d f : String) : Bool := listStarts (d.data ++ ['/']) f.data

/-- Outcome classes of executing the untrusted script (spec section 4.3).
Each constructor carries the world as the script left it (the script may
have written files, changed directory, etc.). -/
inductive ScriptOutcome where
  | ok (w : World)
  | sysExit (code : Int) (w : World)
  | exc (name msg tb : String) (w : World)
  deriving DecidableEq, Repr

/-- The structured result record (spec section 3): success, or failure
with a classified error message. -/
inductive ResultLine where
  | success
  | failure (error : String)
  deriving DecidableEq, Repr

/-- Observable events of one invocation, in program order: temporary
directory creation, working-directory changes, the execution attempt,
temporary tree removal, and each line written to stdout. -/
inductive Event where
  | mkdtemp (dir : String)
  | chdirEv (dir : String)
  | execScript
  | rmtree (dir : String)
  | print (r : ResultLine)
  deriving DecidableEq, Repr

/-- Result of one invocation: the event trace, the process exit code and
the final world. -/
structure RunResult where
  trace : List Event
  exitCode : Nat
  world : World
  deriving DecidableEq, Repr

def ppOutputKey : String := "PPTX_OUTPUT_PATH"

/-- The JavaScript / PptxGenJS markers of line 42. -/
def jsMarkers : List String :=
  ["const ", "var ", "let ", "function ", "require(", "//", "/*", "=>", "module.exports"]

def missingArgMsg : String := "Missing output path argument"

def stdinFailMsg (e : String) : String := "Failed to read script from stdin: " ++ e

def emptyInputMsg : String := "Empty script received"

def wrongLanguageMsg : String :=
  "ERROR: El script parece ser JavaScript/PptxGenJS, no Python.\n" ++
  "Por favor genera el script usando Python con python-pptx.\n" ++
  "El script debe empezar con:\n" ++
  "  from pptx import Presentation\n" ++
  "  from pptx.util import Inches, Pt\n" ++
  "  ...\n" ++
  "Y terminar con:\n" ++
  "  prs.save(os.environ[\x27PPTX_OUTPUT_PATH\x27])"

def noArtifactMsg : String :=
  "Script executed but did not save the presentation. " ++
  "Make sure the last line is:\n" ++
  "  prs.save(os.environ[\x27PPTX_OUTPUT_PATH\x27])"

/-- World after line 27: the resolved absolute output path has been
exposed in the environment under the fixed key. -/
def envReady (w0 : World) (outputPath : String) : World :=
  { w0 with env := setEnv w0.env ppOutputKey outputPath }

/-- World the script starts in: environment set, fresh temporary
directory created and entered (lines 60 to 63). -/
def sandboxWorld (w0 : World) (outputPath tmp : String) : World :=
  { envReady w0 outputPath with dirs := tmp :: w0.dirs, cwd := tmp }

/-- The `finally` block of lines 82 to 84: restore the working directory,
then remove the temporary tree (the directory itself and every file
under it), ignoring errors. -/
def teardown (originalCwd tmp : String) (w : World) : World :=
  { w with cwd := originalCwd,
           dirs := w.dirs.filter (fun d => !(d == tmp)),
           files := w.files.filter (fun f => !inDir tmp f) }

/-- Artifact verification and result report (lines 86 to 98), applied to
the post-teardown world: success when a file exists at the output path,
otherwise the NoArtifactProduced failure. -/
def finishCheck (pre : List Event) (w : World) (outputPath : String) : RunResult :=
  if outputPath ∈ w.files then
    ⟨pre ++ [Event.print ResultLine.success], 0, w⟩
  else
    ⟨pre ++ [Event.print (ResultLine.failure noArtifactMsg)], 1, w⟩

/-- The `main` function of run_ppt_script.py as a trace-producing
function.  Inputs: argv (argv[0] is the program name), the stdin read
outcome (decode error or decoded source), the directory name mkdtemp
chooses, the semantics of the untrusted script, and the initial world.
On the runtime-failure path the report is printed inside the `try`
block, so it precedes the `finally` teardown in the trace; on the other
execute-branch paths the artifact check and report follow the
teardown. -/
def runMain (argv : List String) (stdin : Except String String) (tmp : String)
    (script : World → ScriptOutcome) (w0 : World) : RunResult :=
  match argv with
  | _ :: arg :: _ =>
    let outputPath := abspath w0.cwd arg
    match stdin with
    | Except.error e =>
        ⟨[Event.print (ResultLine.failure (stdinFailMsg e))], 1, envReady w0 outputPath⟩
    | Except.ok scriptCode =>
      if isBlank scriptCode then
        ⟨[Event.print (ResultLine.failure emptyInputMsg)], 1, envReady w0 outputPath⟩
      else if jsMarkers.any (fun m => strStarts m (pyLStrip scriptCode)) then
        ⟨[Event.print (ResultLine.failure wrongLanguageMsg)], 1, envReady w0 outputPath⟩
      else
        let setup : List Event := [Event.mkdtemp tmp, Event.chdirEv tmp, Event.execScript]
        let td : List Event := [Event.chdirEv w0.cwd, Event.rmtree tmp]
        match script (sandboxWorld w0 outputPath tmp) with
        | ScriptOutcome.exc name msg tb w =>
            ⟨setup ++ [Event.print (ResultLine.failure (name ++ ": " ++ msg ++ "\n" ++ tb))] ++ td,
              1, teardown w0.cwd tmp w⟩
        | ScriptOutcome.ok w => finishCheck (setup ++ td) (teardown w0.cwd tmp w) outputPath
        | ScriptOutcome.sysExit _ w => finishCheck (setup ++ td) (teardown w0.cwd tmp w) outputPath
  | _ => ⟨[Event.print (ResultLine.failure missingArgMsg)], 1, w0⟩

/-- The sequence of result lines printed to stdout, extracted from a
trace. -/
def printsOf : List Event → List ResultLine
  | [] => []
  | Event.print r :: es => r :: printsOf es
  | _ :: es => printsOf es

/-- Recognisers for trace events. -/
def isPrintEvt : Event → Bool
  | Event.print _ => true
  | _ => false

def isRmtreeEvt : Event → Bool
  | Event.rmtree _ => true
  | _ => false

def isChdirEvt : Event → Bool
  | Event.chdirEv _ => true
  | _ => false

/-- One hexadecimal digit character, as produced by json.dumps in a
\uXXXX escape. -/
def hexDigit (n : Nat) : Char :=
  if n < 10 then Char.ofNat (48 + n) else Char.ofNat (87 + n)

/-- Four hexadecimal digits of a code point below 0x10000. -/
def hex4 (n : Nat) : List Char :=
  [hexDigit (n / 4096 % 16), hexDigit (n / 256 % 16), hexDigit (n / 16 % 16), hexDigit (n % 16)]

/-- The escape json.dumps applies to one character inside a JSON string:
quote, backslash, the named control escapes, \uXXXX for the remaining
control characters, and every other character verbatim. -/
def escapeChar (c : Char) : List Char :=
  if c = '"' then ['\\', '"']
  else if c = '\\' then ['\\', '\\']
  else if c = '\n' then ['\\', 'n']
  else if c = '\r' then ['\\', 'r']
  else if c = '\t' then ['\\', 't']
  else if c.toNat < 32 then '\\' :: 'u' :: hex4 c.toNat
  else [c]

def escapeChars : List Char → List Char
  | [] => []
  | c :: cs => escapeChar c ++ escapeChars cs

/-- The exact line json.dumps produces for a success record. -/
def successJson : String := "\x7b\"success\": true\x7d"

/-- The exact line json.dumps produces for a failure record with the
given (unescaped) error message. -/
def renderResult : ResultLine → String
  | ResultLine.success => successJson
  | ResultLine.failure e =>
      String.mk ("\x7b\"success\": false, \"error\": \"".data ++ escapeChars e.data ++ "\"\x7d".data)

/-- A list all of whose elements satisfy p is emptied by dropWhile p. -/
theorem all_dropWhile_nil (p : Char → Bool) :
    ∀ l : List Char, l.all p = true → l.dropWhile p = []
  | [], _ => rfl
  | c :: cs, h => by
      simp only [List.all_cons, Bool.and_eq_true] at h
      simp [List.dropWhile, h.1, all_dropWhile_nil p cs h.2]

/-- A whitespace-only script matches no JavaScript marker: the empty-input
branch of line 36 fires strictly before the marker check of line 43 can. -/
theorem blank_no_marker (code : String) (h : isBlank code = true) :
    jsMarkers.any (fun m => strStarts m (pyLStrip code)) = false := by
  have hnil : code.data.dropWhile isPySpace = [] := all_dropWhile_nil isPySpace code.data h
  simp [jsMarkers, strStarts, pyLStrip, hnil, listStarts]

/-- Demonstration world used by the concrete witnesses below. -/
def w0demo : World :=
  { files := ["/work/seed.txt"], dirs := ["/work"], cwd := "/work", env := [("HOME", "/root")] }

/-- C8: an empty or whitespace-only script source is rejected with the
EmptyInput report and exit status 1 before any isolation setup: the full
result is the single failure print, exit code 1, and a world in which
only the environment variable was set — no temporary directory was
created, no directory change happened, and no execution was attempted. -/
theorem run_empty_input (arg0 arg code tmp : String) (script : World → ScriptOutcome)
    (w0 : World) (hb : isBlank code = true) :
    runMain (arg0 :: [arg]) (Except.ok code) tmp script w0 =
      ⟨[Event.print (ResultLine.failure emptyInputMsg)], 1, envReady w0 (abspath w0.cwd arg)⟩ ∧
    (runMain (arg0 :: [arg]) (Except.ok code) tmp script w0).world.dirs = w0.dirs ∧
    (runMain (arg0 :: [arg]) (Except.ok code) tmp script w0).world.cwd = w0.cwd := by
  simp [runMain, hb, envReady]

theorem run_empty_input_witness :
    runMain ["run_ppt_script.py", "/out/deck.pptx"] (Except.ok "  \n\t") "/tmp/dome_ppt_sandbox_a"
        (fun w => ScriptOutcome.ok w) w0demo =
      ⟨[Event.print (ResultLine.failure emptyInputMsg)], 1,
        envReady w0demo (abspath w0demo.cwd "/out/deck.pptx")⟩ ∧
    (runMain ["run_ppt_script.py", "/out/deck.pptx"] (Except.ok "  \n\t") "/tmp/dome_ppt_sandbox_a"
        (fun w => ScriptOutcome.ok w) w0demo).world.dirs = w0demo.dirs ∧
    (runMain ["run_ppt_script.py", "/out/deck.pptx"] (Except.ok "  \n\t") "/tmp/dome_ppt_sandbox_a"
        (fun w => ScriptOutcome.ok w) w0demo).world.cwd = w0demo.cwd :=
  run_empty_input "run_ppt_script.py" "/out/deck.pptx" "  \n\t" "/tmp/dome_ppt_sandbox_a"
    (fun w => ScriptOutcome.ok w) w0demo (by decide)

/-- C7: a script whose left-trimmed text starts with one of the fixed
JavaScript markers is rejected with the WrongLanguage report and exit
status 1, and the trace is the single failure print: the script is never
compiled or executed and no temporary directory is ever created. -/
theorem run_wrong_language (arg0 arg code tmp : String) (script : World → ScriptOutcome)
    (w0 : World) (hjs : jsMarkers.any (fun m => strStarts m (pyLStrip code)) = true) :
    runMain (arg0 :: [arg]) (Except.ok code) tmp script w0 =
      ⟨[Event.print (ResultLine.failure wrongLanguageMsg)], 1,
        envReady w0 (abspath w0.cwd arg)⟩ := by
  have hb : isBlank code = false := by
    cases h : isBlank code with
    | false => rfl
    | true => rw [blank_no_marker code h] at hjs; exact absurd hjs (by simp)
  simp [runMain, hb, hjs]

theorem run_wrong_language_witness :
    runMain ["run_ppt_script.py", "/out/deck.pptx"] (Except.ok "const pres = new PptxGenJS();")
        "/tmp/dome_ppt_sandbox_b" (fun w => ScriptOutcome.ok w) w0demo =
      ⟨[Event.print (ResultLine.failure wrongLanguageMsg)], 1,
        envReady w0demo (abspath w0demo.cwd "/out/deck.pptx")⟩ :=
  run_wrong_language "run_ppt_script.py" "/out/deck.pptx" "const pres = new PptxGenJS();"
    "/tmp/dome_ppt_sandbox_b" (fun w => ScriptOutcome.ok w) w0demo (by decide)

/-- The final world of the artifact-check step is the post-teardown world,
whichever report is emitted. -/
theorem finishCheck_world (pre : List Event) (w : World) (p : String) :
    (finishCheck pre w p).world = w := by
  unfold finishCheck; split <;> rfl

/-- Filtering the trace of the artifact-check step by a predicate that
ignores print events leaves exactly the filtered prefix. -/
theorem finishCheck_trace_filter (q : Event → Bool) (hq : ∀ r, q (Event.print r) = false)
    (pre : List Event) (w : World) (p : String) :
    (finishCheck pre w p).trace.filter q = pre.filter q := by
  unfold finishCheck; split <;> simp [List.filter_append, hq]

/-- C1: a script that completes without raising and saves a file at the
resolved absolute output path (the value exposed under PPTX_OUTPUT_PATH)
yields the success report, exit status 0, and the artifact still exists
at that path — whatever working directory the script left behind, since
the path was resolved against the invoking working directory before the
change into the temporary directory.  The freshness hypothesis states
that the mkdtemp-chosen directory does not contain the output path. -/
theorem run_saves_artifact (arg0 arg code tmp : String) (script : World → ScriptOutcome)
    (w0 w1 : World)
    (hb : isBlank code = false)
    (hjs : jsMarkers.any (fun m => strStarts m (pyLStrip code)) = false)
    (hrun : script (sandboxWorld w0 (abspath w0.cwd arg) tmp) = ScriptOutcome.ok w1)
    (hsave : abspath w0.cwd arg ∈ w1.files)
    (hfresh : inDir tmp (abspath w0.cwd arg) = false) :
    printsOf (runMain (arg0 :: [arg]) (Except.ok code) tmp script w0).trace =
        [ResultLine.success] ∧
    (runMain (arg0 :: [arg]) (Except.ok code) tmp script w0).exitCode = 0 ∧
    abspath w0.cwd arg ∈ (runMain (arg0 :: [arg]) (Except.ok code) tmp script w0).world.files := by
  have hmem : abspath w0.cwd arg ∈ (teardown w0.cwd tmp w1).files := by
    simp [teardown, List.mem_filter, hsave, hfresh]
  simp [runMain, hb, hjs, hrun, finishCheck, hmem, printsOf]

/-- A demonstration script that writes the artifact and completes. -/
def saveScript : World → ScriptOutcome :=
  fun w => ScriptOutcome.ok { w with files := "/out/deck.pptx" :: w.files, cwd := "/elsewhere" }

theorem run_saves_artifact_witness :
    printsOf (runMain ["run_ppt_script.py", "/out/deck.pptx"]
        (Except.ok "from pptx import Presentation") "/tmp/dome_ppt_sandbox_c"
        saveScript w0demo).trace = [ResultLine.success] ∧
    (runMain ["run_ppt_script.py", "/out/deck.pptx"]
        (Except.ok "from pptx import Presentation") "/tmp/dome_ppt_sandbox_c"
        saveScript w0demo).exitCode = 0 ∧
    abspath w0demo.cwd "/out/deck.pptx" ∈
      (runMain ["run_ppt_script.py", "/out/deck.pptx"]
        (Except.ok "from pptx import Presentation") "/tmp/dome_ppt_sandbox_c"
        saveScript w0demo).world.files :=
  run_saves_artifact "run_ppt_script.py" "/out/deck.pptx" "from pptx import Presentation"
    "/tmp/dome_ppt_sandbox_c" saveScript w0demo _
    (by decide) (by decide) rfl (by decide) (by decide)

/-- C3: an execution that ends without a classified runtime failure
(clean completion or a SystemExit) but leaves no file at the resolved
output path yields the NoArtifactProduced report and exit status 1 —
the artifact-existence check runs after every non-failing execution. -/
theorem run_no_artifact (arg0 arg code tmp : String) (script : World → ScriptOutcome)
    (w0 w1 : World) (ec : Int)
    (hb : isBlank code = false)
    (hjs : jsMarkers.any (fun m => strStarts m (pyLStrip code)) = false)
    (hrun : script (sandboxWorld w0 (abspath w0.cwd arg) tmp) = ScriptOutcome.ok w1 ∨
            script (sandboxWorld w0 (abspath w0.cwd arg) tmp) = ScriptOutcome.sysExit ec w1)
    (hmiss : abspath w0.cwd arg ∉ w1.files) :
    printsOf (runMain (arg0 :: [arg]) (Except.ok code) tmp script w0).trace =
        [ResultLine.failure noArtifactMsg] ∧
    (runMain (arg0 :: [arg]) (Except.ok code) tmp script w0).exitCode = 1 := by
  have hnm : abspath w0.cwd arg ∉ (teardown w0.cwd tmp w1).files := by
    simp [teardown, List.mem_filter, hmiss]
  rcases hrun with h | h <;> simp [runMain, hb, hjs, h, finishCheck, hnm, printsOf]

/-- A demonstration script that completes cleanly without writing any
file. -/
def lazyScript : World → ScriptOutcome := fun w => ScriptOutcome.ok w

theorem run_no_artifact_witness :
    printsOf (runMain ["run_ppt_script.py", "/out/deck.pptx"] (Except.ok "x = 1")
        "/tmp/dome_ppt_sandbox_d" lazyScript w0demo).trace =
        [ResultLine.failure noArtifactMsg] ∧
    (runMain ["run_ppt_script.py", "/out/deck.pptx"] (Except.ok "x = 1")
        "/tmp/dome_ppt_sandbox_d" lazyScript w0demo).exitCode = 1 :=
  run_no_artifact "run_ppt_script.py" "/out/deck.pptx" "x = 1" "/tmp/dome_ppt_sandbox_d"
    lazyScript w0demo _ 0 (by decide) (by decide) (Or.inl rfl) (by decide)

/-- C4: a script that raises through the normal exception channel yields
exactly one structured failure report whose message is the kind name,
the message text and the full traceback composed into one string, and
exit status 1. -/
theorem run_runtime_failure (arg0 arg code tmp name msg tb : String)
    (script : World → ScriptOutcome) (w0 w1 : World)
    (hb : isBlank code = false)
    (hjs : jsMarkers.any (fun m => strStarts m (pyLStrip code)) = false)
    (hrun : script (sandboxWorld w0 (abspath w0.cwd arg) tmp) =
        ScriptOutcome.exc name msg tb w1) :
    printsOf (runMain (arg0 :: [arg]) (Except.ok code) tmp script w0).trace =
        [ResultLine.failure (name ++ ": " ++ msg ++ "\n" ++ tb)] ∧
    (runMain (arg0 :: [arg]) (Except.ok code) tmp script w0).exitCode = 1 := by
  simp [runMain, hb, hjs, hrun, printsOf]

/-- A demonstration script that raises ValueError. -/
def raisingScript : World → ScriptOutcome :=
  fun w => ScriptOutcome.exc "ValueError" "boom" "Traceback (most recent call last): ..." w

theorem run_runtime_failure_witness :
    printsOf (runMain ["run_ppt_script.py", "/out/deck.pptx"] (Except.ok "raise ValueError")
        "/tmp/dome_ppt_sandbox_e" raisingScript w0demo).trace =
        [ResultLine.failure
          ("ValueError" ++ ": " ++ "boom" ++ "\n" ++ "Traceback (most recent call last): ...")] ∧
    (runMain ["run_ppt_script.py", "/out/deck.pptx"] (Except.ok "raise ValueError")
        "/tmp/dome_ppt_sandbox_e" raisingScript w0demo).exitCode = 1 :=
  run_runtime_failure "run_ppt_script.py" "/out/deck.pptx" "raise ValueError"
    "/tmp/dome_ppt_sandbox_e" "ValueError" "boom" "Traceback (most recent call last): ..."
    raisingScript w0demo _ (by decide) (by decide) rfl

/-- C2: on every exit path of the execution branch the `finally` block
runs exactly once: the trace contains exactly one temporary-tree removal
(of the mkdtemp directory) and exactly two directory changes — into the
temporary directory and back to the prior working directory — the final
working directory equals the prior one, and the temporary directory no
longer exists in the final world. -/
theorem run_cleanup (arg0 arg code tmp : String) (script : World → ScriptOutcome)
    (w0 : World)
    (hb : isBlank code = false)
    (hjs : jsMarkers.any (fun m => strStarts m (pyLStrip code)) = false) :
    (runMain (arg0 :: [arg]) (Except.ok code) tmp script w0).trace.filter isRmtreeEvt =
        [Event.rmtree tmp] ∧
    (runMain (arg0 :: [arg]) (Except.ok code) tmp script w0).trace.filter isChdirEvt =
        [Event.chdirEv tmp, Event.chdirEv w0.cwd] ∧
    (runMain (arg0 :: [arg]) (Except.ok code) tmp script w0).world.cwd = w0.cwd ∧
    tmp ∉ (runMain (arg0 :: [arg]) (Except.ok code) tmp script w0).world.dirs := by
  cases h : script (sandboxWorld w0 (abspath w0.cwd arg) tmp) with
  | ok w =>
      simp only [runMain, hb, hjs, h, Bool.false_eq_true, if_false]
      refine ⟨?_, ?_, ?_, ?_⟩
      · rw [finishCheck_trace_filter isRmtreeEvt (fun r => rfl)]; rfl
      · rw [finishCheck_trace_filter isChdirEvt (fun r => rfl)]; rfl
      · rw [finishCheck_world]; rfl
      · rw [finishCheck_world]; simp [teardown, List.mem_filter]
  | sysExit c w =>
      simp only [runMain, hb, hjs, h, Bool.false_eq_true, if_false]
      refine ⟨?_, ?_, ?_, ?_⟩
      · rw [finishCheck_trace_filter isRmtreeEvt (fun r => rfl)]; rfl
      · rw [finishCheck_trace_filter isChdirEvt (fun r => rfl)]; rfl
      · rw [finishCheck_world]; rfl
      · rw [finishCheck_world]; simp [teardown, List.mem_filter]
  | exc name msg tb w =>
      refine ⟨?_, ?_, ?_, ?_⟩ <;>
        simp [runMain, hb, hjs, h, isRmtreeEvt, isChdirEvt, teardown, List.mem_filter]

theorem run_cleanup_witness :
    (runMain ["run_ppt_script.py", "/out/deck.pptx"] (Except.ok "raise ValueError")
        "/tmp/dome_ppt_sandbox_f" raisingScript w0demo).trace.filter isRmtreeEvt =
        [Event.rmtree "/tmp/dome_ppt_sandbox_f"] ∧
    (runMain ["run_ppt_script.py", "/out/deck.pptx"] (Except.ok "raise ValueError")
        "/tmp/dome_ppt_sandbox_f" raisingScript w0demo).trace.filter isChdirEvt =
        [Event.chdirEv "/tmp/dome_ppt_sandbox_f", Event.chdirEv w0demo.cwd] ∧
    (runMain ["run_ppt_script.py", "/out/deck.pptx"] (Except.ok "raise ValueError")
        "/tmp/dome_ppt_sandbox_f" raisingScript w0demo).world.cwd = w0demo.cwd ∧
    "/tmp/dome_ppt_sandbox_f" ∉ (runMain ["run_ppt_script.py", "/out/deck.pptx"]
        (Except.ok "raise ValueError") "/tmp/dome_ppt_sandbox_f"
        raisingScript w0demo).world.dirs :=
  run_cleanup "run_ppt_script.py" "/out/deck.pptx" "raise ValueError" "/tmp/dome_ppt_sandbox_f"
    raisingScript w0demo (by decide) (by decide)

/-- C5 counterexample: with a script that raises, the failure report is
printed inside the `try` block, so in the trace the print event strictly
precedes the teardown events — the claim that teardown always precedes
every report on the execute branch is false at this input. -/
theorem run_report_precedes_teardown_cx :
    Event.rmtree "/tmp/dome_ppt_sandbox_g" ∈
      (runMain ["run_ppt_script.py", "/out/deck.pptx"] (Except.ok "raise ValueError")
        "/tmp/dome_ppt_sandbox_g" raisingScript w0demo).trace ∧
    List.findIdx isPrintEvt
      (runMain ["run_ppt_script.py", "/out/deck.pptx"] (Except.ok "raise ValueError")
        "/tmp/dome_ppt_sandbox_g" raisingScript w0demo).trace <
    List.findIdx isRmtreeEvt
      (runMain ["run_ppt_script.py", "/out/deck.pptx"] (Except.ok "raise ValueError")
        "/tmp/dome_ppt_sandbox_g" raisingScript w0demo).trace := by
  decide

/-- C5 amended: on the execute branch the teardown precedes the report
exactly when the execution did not raise — for a clean completion or a
SystemExit the artifact-check report follows the teardown, while for a
classified runtime failure the report precedes the teardown (which still
always runs, before process exit). -/
theorem run_teardown_report_order (arg0 arg code tmp : String)
    (script : World → ScriptOutcome) (w0 : World)
    (hb : isBlank code = false)
    (hjs : jsMarkers.any (fun m => strStarts m (pyLStrip code)) = false) :
    (∀ w1, script (sandboxWorld w0 (abspath w0.cwd arg) tmp) = ScriptOutcome.ok w1 →
      List.findIdx isRmtreeEvt
          (runMain (arg0 :: [arg]) (Except.ok code) tmp script w0).trace <
        List.findIdx isPrintEvt
          (runMain (arg0 :: [arg]) (Except.ok code) tmp script w0).trace) ∧
    (∀ c w1, script (sandboxWorld w0 (abspath w0.cwd arg) tmp) = ScriptOutcome.sysExit c w1 →
      List.findIdx isRmtreeEvt
          (runMain (arg0 :: [arg]) (Except.ok code) tmp script w0).trace <
        List.findIdx isPrintEvt
          (runMain (arg0 :: [arg]) (Except.ok code) tmp script w0).trace) ∧
    (∀ name msg tb w1,
      script (sandboxWorld w0 (abspath w0.cwd arg) tmp) = ScriptOutcome.exc name msg tb w1 →
      List.findIdx isPrintEvt
          (runMain (arg0 :: [arg]) (Except.ok code) tmp script w0).trace <
        List.findIdx isRmtreeEvt
          (runMain (arg0 :: [arg]) (Except.ok code) tmp script w0).trace) := by
  refine ⟨?_, ?_, ?_⟩
  · intro w1 h
    simp only [runMain, hb, hjs, h, Bool.false_eq_true, if_false]
    unfold finishCheck
    split <;> simp [List.findIdx_cons, isRmtreeEvt, isPrintEvt]
  · intro c w1 h
    simp only [runMain, hb, hjs, h, Bool.false_eq_true, if_false]
    unfold finishCheck
    split <;> simp [List.findIdx_cons, isRmtreeEvt, isPrintEvt]
  · intro name msg tb w1 h
    simp [runMain, hb, hjs, h, List.findIdx_cons, isRmtreeEvt, isPrintEvt]

theorem run_teardown_report_order_witness :
    List.findIdx isPrintEvt
        (runMain ["run_ppt_script.py", "/out/deck.pptx"] (Except.ok "raise ValueError")
          "/tmp/dome_ppt_sandbox_h" raisingScript w0demo).trace <
      List.findIdx isRmtreeEvt
        (runMain ["run_ppt_script.py", "/out/deck.pptx"] (Except.ok "raise ValueError")
          "/tmp/dome_ppt_sandbox_h" raisingScript w0demo).trace :=
  (run_teardown_report_order "run_ppt_script.py" "/out/deck.pptx" "raise ValueError"
      "/tmp/dome_ppt_sandbox_h" raisingScript w0demo (by decide) (by decide)).2.2
    "ValueError" "boom" "Traceback (most recent call last): ..." _ rfl

/-- Hexadecimal digit characters are never a newline. -/
theorem hexDigit_ne_newline : ∀ k : Nat, k < 16 → hexDigit k ≠ '\n' := by
  decide

/-- The escape of a single character never contains a raw newline. -/
theorem escapeChar_no_newline (c : Char) : '\n' ∉ escapeChar c := by
  unfold escapeChar
  split
  · decide
  · split
    · decide
    · split
      · decide
      · split
        · decide
        · split
          · decide
          · split
            · intro hmem
              simp only [hex4, List.mem_cons, List.not_mem_nil, or_false] at hmem
              rcases hmem with h1 | h1 | h1 | h1 | h1 | h1 <;>
                first
                  | exact absurd h1 (by decide)
                  | exact hexDigit_ne_newline _ (Nat.mod_lt _ (by norm_num)) h1.symm
            · rename_i h1 h2 h3 h4 h5 h6
              intro hmem
              simp only [List.mem_cons, List.not_mem_nil, or_false] at hmem
              exact h3 hmem.symm

/-- The escaped form of any string contains no raw newline. -/
theorem escapeChars_no_newline : ∀ l : List Char, '\n' ∉ escapeChars l
  | [] => by simp [escapeChars]
  | c :: cs => by
      simp only [escapeChars, List.mem_append]
      intro hmem
      rcases hmem with h | h
      · exact escapeChar_no_newline c h
      · exact escapeChars_no_newline cs h

/-- The rendered JSON result line is a single line: json.dumps escapes
every newline of the message, so the emitted text contains none. -/
theorem render_no_newline (r : ResultLine) : '\n' ∉ (renderResult r).data := by
  cases r with
  | success => decide
  | failure e =>
      simp only [renderResult, List.mem_append]
      intro hmem
      rcases hmem with (h | h) | h
      · exact absurd h (by decide)
      · exact escapeChars_no_newline e.data h
      · exact absurd h (by decide)

/-- Every invocation prints exactly one result line, and the exit code is
1 exactly when that line is a failure record. -/
theorem runMain_report_shape (argv : List String) (stdin : Except String String)
    (tmp : String) (script : World → ScriptOutcome) (w0 : World) :
    ∃ r : ResultLine, printsOf (runMain argv stdin tmp script w0).trace = [r] ∧
      (runMain argv stdin tmp script w0).exitCode =
        (if r = ResultLine.success then 0 else 1) := by
  rcases argv with _ | ⟨a0, _ | ⟨a1, rest⟩⟩
  · exact ⟨ResultLine.failure missingArgMsg, by simp [runMain, printsOf], by simp [runMain]⟩
  · exact ⟨ResultLine.failure missingArgMsg, by simp [runMain, printsOf], by simp [runMain]⟩
  · rcases stdin with e | code
    · exact ⟨ResultLine.failure (stdinFailMsg e), by simp [runMain, printsOf],
        by simp [runMain]⟩
    · cases hb : isBlank code with
      | true =>
          exact ⟨ResultLine.failure emptyInputMsg, by simp [runMain, hb, printsOf],
            by simp [runMain, hb]⟩
      | false =>
          cases hjs : jsMarkers.any (fun m => strStarts m (pyLStrip code)) with
          | true =>
              exact ⟨ResultLine.failure wrongLanguageMsg, by simp [runMain, hb, hjs, printsOf],
                by simp [runMain, hb, hjs]⟩
          | false =>
              cases h : script (sandboxWorld w0 (abspath w0.cwd a1) tmp) with
              | ok w =>
                  by_cases hm : abspath w0.cwd a1 ∈ (teardown w0.cwd tmp w).files
                  · exact ⟨ResultLine.success,
                      by simp [runMain, hb, hjs, h, finishCheck, hm, printsOf],
                      by simp [runMain, hb, hjs, h, finishCheck, hm]⟩
                  · exact ⟨ResultLine.failure noArtifactMsg,
                      by simp [runMain, hb, hjs, h, finishCheck, hm, printsOf],
                      by simp [runMain, hb, hjs, h, finishCheck, hm]⟩
              | sysExit c w =>
                  by_cases hm : abspath w0.cwd a1 ∈ (teardown w0.cwd tmp w).files
                  · exact ⟨ResultLine.success,
                      by simp [runMain, hb, hjs, h, finishCheck, hm, printsOf],
                      by simp [runMain, hb, hjs, h, finishCheck, hm]⟩
                  · exact ⟨ResultLine.failure noArtifactMsg,
                      by simp [runMain, hb, hjs, h, finishCheck, hm, printsOf],
                      by simp [runMain, hb, hjs, h, finishCheck, hm]⟩
              | exc name msg tb w =>
                  exact ⟨ResultLine.failure (name ++ ": " ++ msg ++ "\n" ++ tb),
                    by simp [runMain, hb, hjs, h, printsOf],
                    by simp [runMain, hb, hjs, h]⟩

/-- C6: for every invocation exactly one structured result line is
written to stdout — never duplicated, and (because json.dumps escapes
newlines) never spanning more than one line — and the process exit code
is 0 exactly when the line is the success record, and is always 0 or
1. -/
theorem run_single_report (argv : List String) (stdin : Except String String)
    (tmp : String) (script : World → ScriptOutcome) (w0 : World) :
    (printsOf (runMain argv stdin tmp script w0).trace).length = 1 ∧
    ((runMain argv stdin tmp script w0).exitCode = 0 ↔
      printsOf (runMain argv stdin tmp script w0).trace = [ResultLine.success]) ∧
    ((runMain argv stdin tmp script w0).exitCode = 0 ∨
      (runMain argv stdin tmp script w0).exitCode = 1) ∧
    (∀ r : ResultLine, '\n' ∉ (renderResult r).data) := by
  obtain ⟨r, hp, he⟩ := runMain_report_shape argv stdin tmp script w0
  refine ⟨by rw [hp]; rfl, ?_, ?_, render_no_newline⟩
  · rw [hp, he]
    by_cases hr : r = ResultLine.success
    · simp [hr]
    · simp [hr]
  · rw [he]
    by_cases hr : r = ResultLine.success
    · simp [hr]
    · simp [hr]

/-- C10: a SystemExit raised by the script — with any status, zero or
not — is suppressed and treated as a clean exit: execution falls through
to the artifact check, so a script that exits with an error code after
saving (outside the temporary tree) is reported as success with exit
status 0, and one that exits with an error code before saving is
classified NoArtifactProduced (not RuntimeFailure) with exit status 1. -/
theorem run_sysexit_suppressed (arg0 arg code tmp : String) (c : Int)
    (script : World → ScriptOutcome) (w0 w1 : World)
    (hb : isBlank code = false)
    (hjs : jsMarkers.any (fun m => strStarts m (pyLStrip code)) = false)
    (hrun : script (sandboxWorld w0 (abspath w0.cwd arg) tmp) = ScriptOutcome.sysExit c w1) :
    ((abspath w0.cwd arg ∈ w1.files ∧ inDir tmp (abspath w0.cwd arg) = false) →
      printsOf (runMain (arg0 :: [arg]) (Except.ok code) tmp script w0).trace =
          [ResultLine.success] ∧
        (runMain (arg0 :: [arg]) (Except.ok code) tmp script w0).exitCode = 0) ∧
    (abspath w0.cwd arg ∉ w1.files →
      printsOf (runMain (arg0 :: [arg]) (Except.ok code) tmp script w0).trace =
          [ResultLine.failure noArtifactMsg] ∧
        (runMain (arg0 :: [arg]) (Except.ok code) tmp script w0).exitCode = 1) := by
  constructor
  · rintro ⟨hsave, hfresh⟩
    have hmem : abspath w0.cwd arg ∈ (teardown w0.cwd tmp w1).files := by
      simp [teardown, List.mem_filter, hsave, hfresh]
    simp [runMain, hb, hjs, hrun, finishCheck, hmem, printsOf]
  · intro hmiss
    have hnm : abspath w0.cwd arg ∉ (teardown w0.cwd tmp w1).files := by
      simp [teardown, List.mem_filter, hmiss]
    simp [runMain, hb, hjs, hrun, finishCheck, hnm, printsOf]

/-- A demonstration script that calls sys.exit(2) without saving. -/
def exitTwoScript : World → ScriptOutcome := fun w => ScriptOutcome.sysExit 2 w

theorem run_sysexit_suppressed_witness :
    printsOf (runMain ["run_ppt_script.py", "/out/deck.pptx"]
        (Except.ok "import sys\nsys.exit(2)") "/tmp/dome_ppt_sandbox_i"
        exitTwoScript w0demo).trace = [ResultLine.failure noArtifactMsg] ∧
    (runMain ["run_ppt_script.py", "/out/deck.pptx"]
        (Except.ok "import sys\nsys.exit(2)") "/tmp/dome_ppt_sandbox_i"
        exitTwoScript w0demo).exitCode = 1 :=
  (run_sysexit_suppressed "run_ppt_script.py" "/out/deck.pptx" "import sys\nsys.exit(2)"
      "/tmp/dome_ppt_sandbox_i" 2 exitTwoScript w0demo _
      (by decide) (by decide) rfl).2 (by decide)

/-- The timeout constant of extract_ppt_images.py line 18. -/
def EXTract_TIMEOUT : Nat := 60

/-- Outcome of the LibreOffice subprocess call (lines 83 to 89): normal
return with an exit code, or expiry of the subprocess timeout. -/
inductive ConvOutcome where
  | ret (returncode : Int)
  | timedOut
  deriving DecidableEq, Repr

/-- Outcome of the pdf2image convert_from_path call (line 111): a list of
page images (abstracted to a page count), or a raised exception. -/
inductive RasterOutcome where
  | pages (n : Nat)
  | err (msg : String)
  deriving DecidableEq, Repr

/-- Observable events of one extractor invocation: the converter
subprocess call and the rasterizer call, each recorded with the timeout
argument it was invoked with (none when no timeout is passed), the
result line, and the temporary-tree removal of the `finally` block. -/
inductive XEvent where
  | runConverter (timeoutSec : Option Nat)
  | rasterize (timeoutSec : Option Nat)
  | printLine (success : Bool)
  | removeTree (dir : String)
  deriving DecidableEq, Repr

/-- The portion of extract_ppt_images.py main (lines 73 to 144) that
follows the preliminary argument, file-existence, LibreOffice-lookup
and pdf2image-import checks: convert the PPTX to PDF with a 60-second subprocess
timeout, locate the PDF, rasterize it with convert_from_path — which is
invoked with dpi only, no timeout argument — and remove the temporary
directory unconditionally in the `finally` block. -/
def extractRun (conv : ConvOutcome) (pdfFound : Bool) (raster : RasterOutcome)
    (tmp : String) : List XEvent :=
  match conv with
  | ConvOutcome.timedOut =>
      [XEvent.runConverter (some EXTract_TIMEOUT), XEvent.printLine false,
        XEvent.removeTree tmp]
  | ConvOutcome.ret rc =>
      if rc ≠ 0 then
        [XEvent.runConverter (some EXTract_TIMEOUT), XEvent.printLine false,
          XEvent.removeTree tmp]
      else if !pdfFound then
        [XEvent.runConverter (some EXTract_TIMEOUT), XEvent.printLine false,
          XEvent.removeTree tmp]
      else
        match raster with
        | RasterOutcome.err _ =>
            [XEvent.runConverter (some EXTract_TIMEOUT), XEvent.rasterize none,
              XEvent.printLine false, XEvent.removeTree tmp]
        | RasterOutcome.pages _ =>
            [XEvent.runConverter (some EXTract_TIMEOUT), XEvent.rasterize none,
              XEvent.printLine true, XEvent.removeTree tmp]

/-- Recognisers for extractor events. -/
def isConvEvt : XEvent → Bool
  | XEvent.runConverter _ => true
  | _ => false

def isRastEvt : XEvent → Bool
  | XEvent.rasterize _ => true
  | _ => false

/-- C9 counterexample: on a successful run the rasterizer is invoked,
but with no timeout argument at all — in particular not with the
60-second bound the converter gets — so the claim that both external
invocations carry a 60-second timeout is false at this input. -/
theorem extract_rasterize_no_timeout_cx :
    XEvent.rasterize none ∈
      extractRun (ConvOutcome.ret 0) true (RasterOutcome.pages 3) "/tmp/dome_ppt_extract_a" ∧
    XEvent.rasterize (some EXTract_TIMEOUT) ∉
      extractRun (ConvOutcome.ret 0) true (RasterOutcome.pages 3) "/tmp/dome_ppt_extract_a" := by
  decide

/-- C9 amended: the LibreOffice converter subprocess is always invoked
with the 60-second timeout (the only converter event in any trace
carries it), the rasterizer is invoked with no timeout argument
whenever it runs, and on every outcome the scoped temporary directory
is removed as the final action. -/
theorem extract_timeouts_and_cleanup (conv : ConvOutcome) (pdfFound : Bool)
    (raster : RasterOutcome) (tmp : String) :
    (extractRun conv pdfFound raster tmp).filter isConvEvt =
        [XEvent.runConverter (some EXTract_TIMEOUT)] ∧
    ((extractRun conv pdfFound raster tmp).filter isRastEvt = [] ∨
      (extractRun conv pdfFound raster tmp).filter isRastEvt = [XEvent.rasterize none]) ∧
    (extractRun conv pdfFound raster tmp).getLast? = some (XEvent.removeTree tmp) := by
  rcases conv with rc | _
  · by_cases hrc : rc = 0
    · subst hrc
      cases pdfFound with
      | false => simp [extractRun, isConvEvt, isRastEvt]
      | true =>
          rcases raster with n | msg <;>
            simp [extractRun, isConvEvt, isRastEvt]
    · rcases raster with n | msg <;> cases pdfFound <;>
        simp [extractRun, hrc, isConvEvt, isRastEvt]
  · simp [extractRun, isConvEvt, isRastEvt]
